import Mathlib

/-!
Verification development for the attendance-management backend
(routes/viewAttendanceRoutes.js + attendanceRoutes.js, routes/promotion.js,
routes/teacherRoutes.js).

The JavaScript routes are shallowly embedded as pure Lean functions over
explicit store states:

* the `attendance` collection is a list of (id, Session) pairs;
* the in-process result cache (a JS `Map`) is a list of (key, entry) pairs;
* the promotion module's `students` / `promotion_history` collections are
  lists of documents;
* the `teachers` collection is a list of teacher documents whose three
  work-queue arrays are `Option`s (`none` models a missing field, `$exists:
  false`).

Idealisations used throughout (none affects the claims):

* string route parameters such as "sem2" are modelled after parsing, i.e. as
  the parsed semester number;
* calendar dates are modelled as an abstract day index `Nat` ("time-of-day
  zeroed"); the `$gte startOfDay, $lt endOfDay` range query becomes equality
  on the day index;
* wall-clock `Date.now()` is an explicit `now : Nat` parameter in
  milliseconds;
* JavaScript `undefined`-able request-body fields are `Option`s; the JS
  truthiness test `!x` on a numeric field is `x = 0` for a present field and
  true for an absent one (empty-string falsiness never matters here);
* case-insensitive `^...$` regular-expression matching is lower-cased string
  equality.
-/

/-! ## Attendance session documents (mongoose schema, viewAttendanceRoutes.js) -/

/-- One document of the `attendance` collection.  Counts are `Int` because the
update routes can compute `totalStudents - presentCount` without any
lower-bound check. -/
structure Session where
  stream : String
  semester : Nat
  subject : String
  dateDay : Nat
  time : String
  studentsPresent : List String
  totalStudents : Int
  presentCount : Int
  absentCount : Int
deriving Repr, DecidableEq

/-- The `attendance` collection: association list from `_id` to document. -/
abbrev AttendanceStore := List (String × Session)

/-- Case-insensitive string equality, modelling the `^<s>$` regex with the
`i` flag used by the routes (lower-casing character by character). -/
def ciEq (a b : String) : Bool :=
  a.data.map Char.toLower == b.data.map Char.toLower

/-- JavaScript `x || d` for an optional numeric `x`: the default is used when
the field is absent or `0` (falsy). -/
def jsOrInt (x : Option Int) (d : Int) : Int :=
  match x with
  | none => d
  | some v => if v = 0 then d else v

/-! ## POST /attendance/:stream/:semester/:subject (submit) -/

/-- Request body of the submit route.  `Option` models possibly-absent JSON
fields (`undefined`). -/
structure SubmitBody where
  date : Option Nat
  time : Option String
  studentsPresent : Option (List String)
  totalStudents : Option Int
  presentCount : Option Int
  absentCount : Option Int
deriving Repr, DecidableEq

inductive SubmitError where
  /-- 400: `!date || !time || !studentsPresent || totalStudents === undefined` -/
  | badRequest
  /-- 500: mongoose schema validation rejected the document on `save()` -/
  | validationFailed
deriving Repr, DecidableEq

/-- The document built by `new Attendance({...})` in the submit route, after
the mongoose pre-save hook has run.  The constructor sets
`presentCount: presentCount || studentsPresent.length` and
`absentCount: absentCount || (totalStudents - studentsPresent.length)`;
the pre-save hook then re-derives either count if it is still falsy (0). -/
def mkSubmittedSession (stream : String) (semesterNumber : Nat) (subject : String)
    (date : Nat) (time : String) (studentsPresent : List String)
    (totalStudents : Int) (presentCount? absentCount? : Option Int) : Session :=
  let p0 := jsOrInt presentCount? (studentsPresent.length : Int)
  let a0 := jsOrInt absentCount? (totalStudents - (studentsPresent.length : Int))
  let p1 := if p0 = 0 then (studentsPresent.length : Int) else p0
  let a1 := if a0 = 0 then totalStudents - p1 else a0
  { stream := stream, semester := semesterNumber, subject := subject,
    dateDay := date, time := time, studentsPresent := studentsPresent,
    totalStudents := totalStudents, presentCount := p1, absentCount := a1 }

/-- Mongoose validation run by `save()`: `semester` min 1 max 8,
`totalStudents`/`presentCount`/`absentCount` min 0.  Validation runs before
user pre-save hooks, i.e. on the constructor-assigned counts. -/
def sessionValid (semesterNumber : Nat) (totalStudents p0 a0 : Int) : Bool :=
  1 ≤ semesterNumber && semesterNumber ≤ 8 &&
    0 ≤ totalStudents && 0 ≤ p0 && 0 ≤ a0

/-- POST /attendance/:stream/:semester/:subject.  On success returns the new
store and the saved document (`newId` is the `_id` assigned by the store). -/
def submitAttendance (stream : String) (semesterNumber : Nat) (subject : String)
    (body : SubmitBody) (newId : String) (store : AttendanceStore) :
    Except SubmitError (AttendanceStore × Session) :=
  match body.date, body.time, body.studentsPresent, body.totalStudents with
  | some date, some time, some studentsPresent, some totalStudents =>
      let p0 := jsOrInt body.presentCount (studentsPresent.length : Int)
      let a0 := jsOrInt body.absentCount (totalStudents - (studentsPresent.length : Int))
      if sessionValid semesterNumber totalStudents p0 a0 then
        let doc := mkSubmittedSession stream semesterNumber subject date time
          studentsPresent totalStudents body.presentCount body.absentCount
        .ok (store ++ [(newId, doc)], doc)
      else
        .error .validationFailed
  | _, _, _, _ => .error .badRequest

/-! ## PUT /attendance/session/:id (single-session update) -/

inductive UpdateError where
  /-- 400: missing `studentsPresent` array or `!totalStudents || totalStudents < 1` -/
  | badRequest
  /-- 404: `findByIdAndUpdate` matched no document -/
  | notFound
deriving Repr, DecidableEq

/-- First document whose `_id` matches. -/
def findId (store : AttendanceStore) (id : String) : Option Session :=
  match store.find? (fun e => e.1 == id) with
  | none => none
  | some e => some e.2

/-- `findByIdAndUpdate`-style in-place replacement of the document with the
given `_id` (ids are unique; the first match is replaced). -/
def setId (store : AttendanceStore) (id : String) (s : Session) : AttendanceStore :=
  match store with
  | [] => []
  | e :: rest => if e.1 == id then (id, s) :: rest else e :: setId rest id s

/-- PUT /attendance/session/:id.  Recomputes
`presentCount = studentsPresent.length` and
`absentCount = totalStudents - presentCount` and `$set`s the four fields.
`findByIdAndUpdate` is called with `{ new: true }` only — update validators
are NOT run, so no lower bound is enforced on the stored counts. -/
def updateSession (id : String) (studentsPresent : List String)
    (totalStudents : Int) (store : AttendanceStore) :
    Except UpdateError (AttendanceStore × Session) :=
  if totalStudents < 1 then .error .badRequest
  else
    let presentCount : Int := studentsPresent.length
    let absentCount : Int := totalStudents - presentCount
    match findId store id with
    | none => .error .notFound
    | some s =>
        let s' := { s with studentsPresent := studentsPresent,
                           presentCount := presentCount,
                           absentCount := absentCount,
                           totalStudents := totalStudents }
        .ok (setId store id s', s')

/-! ## PUT /attendance/bulk/... (bulk update) -/

/-- One element of the `updates` array of the bulk route. -/
structure BulkItem where
  sessionId : String
  studentsPresent : List String
  totalStudents : Int
deriving Repr, DecidableEq

/-- The `updateOne` operation built for one bulk item: `$set` of
`studentsPresent`, `presentCount = studentsPresent.length`,
`absentCount = totalStudents - studentsPresent.length`, `totalStudents`
on the document matching `_id = sessionId` (no-op when absent). -/
def applyBulkItem (item : BulkItem) (store : AttendanceStore) : AttendanceStore :=
  match findId store item.sessionId with
  | none => store
  | some s =>
      let s' := { s with studentsPresent := item.studentsPresent,
                         presentCount := (item.studentsPresent.length : Int),
                         absentCount := item.totalStudents - (item.studentsPresent.length : Int),
                         totalStudents := item.totalStudents }
      setId store item.sessionId s'

/-- `Attendance.bulkWrite(bulkOps)`: each `updateOne` is applied in order as
an independent single-document write. -/
def bulkUpdate (updates : List BulkItem) (store : AttendanceStore) : AttendanceStore :=
  updates.foldl (fun st item => applyBulkItem item st) store

/-! ## DELETE /attendance/:id -/

/-- Response shape of the delete route. -/
structure DeleteResp where
  status : Nat
  success : Bool
  error : Option String
deriving Repr, DecidableEq

def containsId (store : AttendanceStore) (id : String) : Bool :=
  store.any (fun e => e.1 == id)

/-- `findByIdAndDelete`: remove the (unique) document with the given id. -/
def eraseId (store : AttendanceStore) (id : String) : AttendanceStore :=
  match store with
  | [] => []
  | e :: rest => if e.1 == id then rest else e :: eraseId rest id

/-- DELETE /attendance/:id (viewAttendanceRoutes.js).  When
`findByIdAndDelete` returns a document the route answers
`{ success: true, message: 'Deleted successfully' }`; when it returns null
the route answers HTTP 404 `{ success: false, error: 'Record not found' }`. -/
def deleteAttendance (id : String) (store : AttendanceStore) :
    AttendanceStore × DeleteResp :=
  match findId store id with
  | none => (store, { status := 404, success := false, error := some "Record not found" })
  | some _ => (eraseId store id, { status := 200, success := true, error := none })

/-! ## Promotion engine (routes/promotion.js)

The stream lookup (`streams` collection, resolving a route parameter to
`streamData.name`) is modelled away: `str` below is the already-resolved
stream name.  Times are milliseconds. -/

/-- One document of the `students` collection (the fields the promotion and
register routes read or write). -/
structure Student where
  studentID : String
  name : String
  stream : String
  semester : Nat
  rollNumber : String
  isActive : Bool
deriving Repr, DecidableEq

/-- One document of the `promotion_history` collection. -/
structure Backup where
  stream : String
  timestamp : Nat
  students : List Student
  totalStudents : Nat
  restored : Bool
deriving Repr, DecidableEq

/-- The state the promotion routes touch. -/
structure PromoDB where
  students : List Student
  history : List Backup
deriving Repr, DecidableEq

/-- One iteration of the promotion loop:
`updateMany({stream, semester: currentSem}, {$set: {semester: currentSem+1}})`. -/
def updateManyPromote (str : String) (currentSem : Nat) (l : List Student) : List Student :=
  l.map fun s =>
    if s.stream == str && s.semester == currentSem then
      { s with semester := currentSem + 1 }
    else s

/-- Result of POST /api/simple-promotion/:stream. -/
structure ExecResult where
  db : PromoDB
  totalGraduated : Nat
deriving Repr, DecidableEq

/-- POST /api/simple-promotion/:stream: insert a backup of the stream's full
roster (`restored: false`), `deleteMany` the semester-6 students
(graduation), then for `currentSem = 5` down to `1` promote `currentSem`
to `currentSem + 1`. -/
def executePromotion (str : String) (now : Nat) (db : PromoDB) : ExecResult :=
  let allStudents := db.students.filter (fun s => s.stream == str)
  let backup : Backup :=
    { stream := str, timestamp := now, students := allStudents,
      totalStudents := allStudents.length, restored := false }
  let history' := db.history ++ [backup]
  let afterGrad := db.students.filter (fun s => !(s.stream == str && s.semester == 6))
  let totalGraduated := db.students.length - afterGrad.length
  let afterLoop := [5, 4, 3, 2, 1].foldl (fun l cur => updateManyPromote str cur l) afterGrad
  { db := { students := afterLoop, history := history' }, totalGraduated := totalGraduated }

/-- `find(filter).sort({timestamp: -1}).limit(1)` over `promotion_history`,
returning the position and value of the chosen document.  Mongo's order on
equal timestamps is unspecified; here the earliest-inserted maximal one is
kept, and all theorems below avoid ties. -/
def latestWithIdx (pred : Backup → Bool) : List Backup → Option (Nat × Backup)
  | [] => none
  | b :: rest =>
    match latestWithIdx pred rest with
    | none => if pred b then some (0, b) else none
    | some (i, a) =>
      if pred b then
        if a.timestamp ≤ b.timestamp then some (0, b) else some (i + 1, a)
      else some (i + 1, a)

inductive UndoError where
  /-- 404: no backup document for the stream at all -/
  | notFound
  /-- 400: `hoursOld > 24` -/
  | undoExpired
deriving Repr, DecidableEq

/-- Result of POST /api/undo-promotion/:stream. -/
structure UndoResult where
  db : PromoDB
  studentsRestored : Nat
deriving Repr, DecidableEq

/-- POST /api/undo-promotion/:stream.  Note the backup query filters on the
stream only — unlike `canUndoPromotion` it does NOT exclude backups with
`restored: true`.  On success: `deleteMany({stream})`, `insertMany` of the
backup's students (storage `_id`s stripped, which this model has none of),
and the backup is marked `restored: true`. -/
def undoPromotion (str : String) (now : Nat) (db : PromoDB) :
    Except UndoError UndoResult :=
  match latestWithIdx (fun b => b.stream == str) db.history with
  | none => .error .notFound
  | some (i, b) =>
    let hoursOld := (now - b.timestamp) / 3600000
    if 24 < hoursOld then .error .undoExpired
    else
      let students' := db.students.filter (fun s => !(s.stream == str)) ++ b.students
      let history' := db.history.set i { b with restored := true }
      .ok { db := { students := students', history := history' },
            studentsRestored := b.students.length }

/-- Response of GET /api/can-undo-promotion/:stream. -/
structure CanUndoResp where
  canUndo : Bool
  hoursOld : Nat
  studentsInBackup : Nat
deriving Repr, DecidableEq

/-- GET /api/can-undo-promotion/:stream: takes the most recent backup with
`restored: { $ne: true }`; no such backup means `canUndo: false`, otherwise
`canUndo = hoursOld <= 24`. -/
def canUndoPromotion (str : String) (now : Nat) (db : PromoDB) : CanUndoResp :=
  match latestWithIdx (fun b => b.stream == str && !b.restored) db.history with
  | none => { canUndo := false, hoursOld := 0, studentsInBackup := 0 }
  | some (_, b) =>
    let hoursOld := (now - b.timestamp) / 3600000
    { canUndo := hoursOld ≤ 24, hoursOld := hoursOld,
      studentsInBackup := b.students.length }

/-- Number of students of a stream sitting at a given semester. -/
def semCount (db : PromoDB) (str : String) (k : Nat) : Nat :=
  db.students.countP (fun s => s.stream == str && s.semester == k)

/-! ## Register builder (GET /attendance/register, GET /attendance/date) -/

/-- Insertion of one element into a list sorted by `le`. -/
def insertLe {α : Type} (le : α → α → Bool) (x : α) : List α → List α
  | [] => [x]
  | y :: ys => if le x y then x :: y :: ys else y :: insertLe le x ys

/-- Insertion sort, modelling the store's `sort(...)` clauses. -/
def sortLe {α : Type} (le : α → α → Bool) (l : List α) : List α :=
  l.foldr (insertLe le) []

/-- Lexicographic comparison of character lists by code point. -/
def charListLe : List Char → List Char → Bool
  | [], _ => true
  | _ :: _, [] => false
  | c :: cs, d :: ds =>
    if c.toNat < d.toNat then true
    else if d.toNat < c.toNat then false
    else charListLe cs ds

/-- The store's ascending string order. -/
def strLe (a b : String) : Bool :=
  charListLe a.data b.data

/-- `sort({ studentID: 1 })`. -/
def studentLe (a b : Student) : Bool :=
  strLe a.studentID b.studentID

/-- `sort({ date: 1, time: 1 })`: lexicographic on (date, time); ties on the
date are broken by the `time` label's string order. -/
def sessionLe (a b : Session) : Bool :=
  a.dateDay < b.dateDay || (a.dateDay == b.dateDay && strLe a.time b.time)

/-- `sort({ time: 1 })`. -/
def timeLe (a b : Session) : Bool :=
  strLe a.time b.time

/-- The active roster fetched by the register/date routes:
`{ stream: /^stream$/i, semester, isActive: true }`, sorted by studentID. -/
def activeRoster (studentsCol : List Student) (stream : String)
    (semesterNumber : Nat) : List Student :=
  sortLe studentLe (studentsCol.filter fun s =>
    ciEq s.stream stream && s.semester == semesterNumber && s.isActive)

/-- JavaScript `(num/den).toFixed(2)` (then `parseFloat`) on a nonnegative
exact value `num/den`, represented as an integer count of hundredths (the
JS value 66.67 is `6667` here): `floor(num/den * 100 + 1/2)`, which is
ECMA's round-to-nearest, larger-on-tie.  Exact rationals stand in for the
JS doubles; no example in this development sits near a rounding boundary
where the binary representation could differ. -/
def toFixed2 (num den : Int) : Int :=
  Int.fdiv (200 * num + den) (2 * den)

/-- One row of the full register (per student). -/
structure RegisterRow where
  studentID : String
  name : String
  rollNumber : String
  statuses : List Char
  presentCount : Nat
  absentCount : Nat
  totalSessions : Nat
  attendancePercentage : Int
deriving Repr, DecidableEq

/-- Result of GET /attendance/register/:stream/:semester/:subject. -/
structure RegisterView where
  students : List RegisterRow
  sessions : List Session
  totalSessions : Nat
  totalStudents : Nat
  totalPossibleAttendances : Nat
  averageAttendance : Int
deriving Repr, DecidableEq

/-- Per-student row of the full register: statuses are `'P'` when the
student's id is in the session's `studentsPresent`, else `'A'`;
`attendancePercentage = ((presentCount / totalSessions) * 100).toFixed(2)`
when `totalSessions > 0` — in hundredths, i.e.
`toFixed2 (presentCount * 100) totalSessions` — and the number `0`
otherwise. -/
def mkRegisterRow (sessions : List Session) (student : Student) : RegisterRow :=
  let statuses := sessions.map fun sess =>
    if sess.studentsPresent.contains student.studentID then 'P' else 'A'
  let presentCount := statuses.countP (fun c => c == 'P')
  let absentCount := statuses.countP (fun c => c == 'A')
  let totalSessions := sessions.length
  { studentID := student.studentID, name := student.name,
    rollNumber := student.rollNumber, statuses := statuses,
    presentCount := presentCount, absentCount := absentCount,
    totalSessions := totalSessions,
    attendancePercentage :=
      if 0 < totalSessions then
        toFixed2 ((presentCount : Int) * 100) (totalSessions : Int)
      else 0 }

/-- GET /attendance/register/:stream/:semester/:subject.
`averageAttendance` is the mean of the per-student (already rounded)
percentages, itself `toFixed(2)`-rounded; `0` when there are no students.
With percentages in hundredths the mean of `p i / 100` over `n` students,
rounded to hundredths, is `toFixed2 (sum of p i) (100 * n)`. -/
def buildFullRegister (studentsCol : List Student) (store : AttendanceStore)
    (stream : String) (semesterNumber : Nat) (subject : String) : RegisterView :=
  let students := activeRoster studentsCol stream semesterNumber
  let sessions := sortLe sessionLe ((store.map Prod.snd).filter fun s =>
    ciEq s.stream stream && s.semester == semesterNumber && ciEq s.subject subject)
  let registerData := students.map (mkRegisterRow sessions)
  { students := registerData, sessions := sessions,
    totalSessions := sessions.length, totalStudents := students.length,
    totalPossibleAttendances := sessions.length * students.length,
    averageAttendance :=
      if 0 < registerData.length then
        toFixed2 ((registerData.map (fun r => r.attendancePercentage)).sum
          : Int) (100 * (registerData.length : Int))
      else 0 }

/-- Per-session info returned by the single-date route. -/
structure DaySessionInfo where
  time : String
  studentsPresent : List String
  presentCount : Int
  absentCount : Int
deriving Repr, DecidableEq

/-- Per-student info returned by the single-date route: (time, status) for
each of the day's sessions. -/
structure DayStudentRow where
  studentID : String
  name : String
  rollNumber : String
  sessions : List (String × Char)
deriving Repr, DecidableEq

/-- Response of GET /attendance/date/...: either the explicit
`hasAttendance: false` shape (carrying the raw roster and `sessions: []`)
or the `hasAttendance: true` shape. -/
inductive DateView where
  | noAttendance (students : List Student)
  | withAttendance (students : List DayStudentRow) (sessions : List DaySessionInfo)
deriving Repr, DecidableEq

/-- GET /attendance/date/:stream/:semester/:subject/:date.  Fetches the
active roster, then the day's sessions (date range restricted to the given
day, sorted by time); with zero sessions it returns the success
`hasAttendance: false` response carrying the roster, otherwise the per-
student per-session statuses. -/
def dateRegister (studentsCol : List Student) (store : AttendanceStore)
    (stream : String) (semesterNumber : Nat) (subject : String)
    (day : Nat) : DateView :=
  let students := activeRoster studentsCol stream semesterNumber
  let records := sortLe timeLe ((store.map Prod.snd).filter fun s =>
    ciEq s.stream stream && s.semester == semesterNumber &&
      ciEq s.subject subject && s.dateDay == day)
  if records.isEmpty then .noAttendance students
  else
    let sessions := records.map fun r =>
      { time := r.time, studentsPresent := r.studentsPresent,
        presentCount := r.presentCount, absentCount := r.absentCount : DaySessionInfo }
    let attendanceData := students.map fun student =>
      { studentID := student.studentID, name := student.name,
        rollNumber := student.rollNumber,
        sessions := sessions.map fun sess =>
          (sess.time,
            if sess.studentsPresent.contains student.studentID then 'P' else 'A')
        : DayStudentRow }
    .withAttendance attendanceData sessions

/-! ## Stats aggregation and the result cache (viewAttendanceRoutes.js) -/

/-- One group of the stats aggregation (`$group` by subject). -/
structure SubjectStats where
  subject : String
  totalClasses : Nat
  totalPresent : Int
  totalAbsent : Int
  avgAttendance : Int × Int
deriving Repr, DecidableEq

/-- Exact sum of a list of fractions, kept as an unreduced
numerator/denominator pair (the denominator is the product of the parts'
denominators).  It stands in for the real-valued accumulation of Mongo's
`$avg`; the cache claims only need the value to be a deterministic
function of the matched documents. -/
def sumFrac (l : List (Int × Int)) : Int × Int :=
  l.foldl (fun acc f => (acc.1 * f.2 + f.1 * acc.2, acc.2 * f.2)) (0, 1)

/-- `a <= b` on strings, as a Bool (for `$sort { _id: 1 }`). -/
def stringLe (a b : String) : Bool :=
  strLe a b

/-- The aggregation of GET /attendance/stats/:stream/:semester: match on
(case-insensitive stream, semester), group by subject with class count,
present/absent sums and the mean of `presentCount / totalStudents`, sort
by subject.  (Mongo's `$divide` faults on a zero `totalStudents`; the model
yields `0` for such a session — no claim exercises that case, see spec §9.) -/
def computeStats (store : AttendanceStore) (stream : String)
    (semesterNumber : Nat) : List SubjectStats :=
  let matching := (store.map Prod.snd).filter fun s =>
    ciEq s.stream stream && s.semester == semesterNumber
  let subjects := sortLe stringLe (matching.map (fun s => s.subject)).eraseDups
  subjects.map fun sub =>
    let group := matching.filter (fun s => s.subject == sub)
    { subject := sub, totalClasses := group.length,
      totalPresent := (group.map (fun s => s.presentCount)).sum,
      totalAbsent := (group.map (fun s => s.absentCount)).sum,
      avgAttendance :=
        let total := sumFrac (group.map (fun s => (s.presentCount, s.totalStudents)))
        (total.1, total.2 * (group.length : Int)) }

/-- One entry of the in-process cache `Map`. -/
structure CacheEntry where
  data : List SubjectStats
  timestamp : Nat
deriving Repr, DecidableEq

/-- The cache `Map`, in insertion order.  (The real map also holds entries of
other routes; the claims only exercise stats entries, so the value type is
specialised to stats data.) -/
abbrev StatsCache := List (String × CacheEntry)

/-- 5 minutes, in milliseconds. -/
def CACHE_TTL : Nat := 5 * 60 * 1000

/-- `getCacheKey(prefix, params)` = prefix ++ ":" ++ JSON.stringify(params).
For the stats route the params object is `{ stream, semester }`, so the key
is the literal string
stats:\x7b"stream":"<stream>","semester":<n>\x7d . -/
def statsCacheKey (stream : String) (semesterNumber : Nat) : String :=
  "stats:" ++ "\x7b\"stream\":\"" ++ stream ++ "\",\"semester\":"
    ++ toString semesterNumber ++ "\x7d"

/-- JS `Map.get`. -/
def cacheFind (cache : StatsCache) (key : String) : Option CacheEntry :=
  match cache.find? (fun kv => kv.1 == key) with
  | none => none
  | some kv => some kv.2

/-- JS `Map.set`: overwrite in place, or append. -/
def cacheSet (cache : StatsCache) (key : String) (e : CacheEntry) : StatsCache :=
  if cache.any (fun kv => kv.1 == key) then
    cache.map (fun kv => if kv.1 == key then (key, e) else kv)
  else cache ++ [(key, e)]

/-- JS `Map.delete`. -/
def cacheDelete (cache : StatsCache) (key : String) : StatsCache :=
  cache.filter (fun kv => !(kv.1 == key))

/-- `getCache(key)`: a hit only when the entry exists and is at most
`CACHE_TTL` old; an expired entry is deleted lazily on lookup. -/
def getCache (cache : StatsCache) (key : String) (now : Nat) :
    Option (List SubjectStats) × StatsCache :=
  match cacheFind cache key with
  | none => (none, cache)
  | some e =>
      if CACHE_TTL < now - e.timestamp then (none, cacheDelete cache key)
      else (some e.data, cache)

/-- `setCache(key, data)` stamps the entry with the current time. -/
def setCache (cache : StatsCache) (key : String) (data : List SubjectStats)
    (now : Nat) : StatsCache :=
  cacheSet cache key { data := data, timestamp := now }

/-- Whether the character list `pat` starts the character list `key`. -/
def startsWithChars : List Char → List Char → Bool
  | _, [] => true
  | [], _ :: _ => false
  | c :: cs, d :: ds => c == d && startsWithChars cs ds

/-- JavaScript `key.startsWith(pat)`. -/
def jsStartsWith (key pat : String) : Bool :=
  startsWithChars key.data pat.data

/-- `clearCachePattern(pattern)`: delete every key having `pattern` as a
string prefix. -/
def clearCachePattern (pat : String) (cache : StatsCache) : StatsCache :=
  cache.filter (fun kv => !(jsStartsWith kv.1 pat))

/-- GET /attendance/stats/:stream/:semester with its cache: returns the
stats, the new cache, and whether the underlying store was queried (the
"spy on the store query" of the spec's cache property). -/
def statsRoute (stream : String) (semesterNumber : Nat) (now : Nat)
    (store : AttendanceStore) (cache : StatsCache) :
    List SubjectStats × StatsCache × Bool :=
  let key := statsCacheKey stream semesterNumber
  match getCache cache key now with
  | (some v, cache₁) => (v, cache₁, false)
  | (none, cache₁) =>
      let v := computeStats store stream semesterNumber
      (v, setCache cache₁ key v now, true)

/-- PUT /attendance/session/:id including its cache invalidation: on success
the route runs `clearCachePattern` with the plain-string patterns
`attendance:<stream>` and `stats:<stream>` of the updated document. -/
def updateSessionRoute (id : String) (studentsPresent : List String)
    (totalStudents : Int) (store : AttendanceStore) (cache : StatsCache) :
    Except UpdateError (AttendanceStore × Session × StatsCache) :=
  match updateSession id studentsPresent totalStudents store with
  | .error e => .error e
  | .ok (store', s') =>
      let cache₁ := clearCachePattern ("attendance:" ++ s'.stream) cache
      let cache₂ := clearCachePattern ("stats:" ++ s'.stream) cache₁
      .ok (store', s', cache₂)

/-! ## Teacher profile repair (routes/teacherRoutes.js, ensureTeacherFields) -/

/-- An element of a teacher's `createdSubjects` / `attendanceQueue` /
`completedClasses` arrays (the fields the routes use). -/
structure QueueItem where
  id : String
  stream : String
  semester : Nat
  subject : String
deriving Repr, DecidableEq

/-- One document of the `teachers` collection.  `none` models a missing
array field (`$exists: false`). -/
structure Teacher where
  email : String
  createdSubjects : Option (List QueueItem)
  attendanceQueue : Option (List QueueItem)
  completedClasses : Option (List QueueItem)
deriving Repr, DecidableEq

/-- `updateOne`: rewrite the first matching document. -/
def updateFirstWhere (pred : Teacher → Bool) (f : Teacher → Teacher) :
    List Teacher → List Teacher
  | [] => []
  | t :: rest => if pred t then f t :: rest else t :: updateFirstWhere pred f rest

/-- `ensureTeacherFields(db, email)`.  The first `updateOne` uses
`$setOnInsert` with `upsert: false`, which never writes anything, so it is
the identity here.  The second `updateOne` matches the teacher when ANY of
the three array fields is missing and then `$set`s ALL THREE to `[]`. -/
def ensureTeacherFields (teachers : List Teacher) (email : String) : List Teacher :=
  updateFirstWhere
    (fun t => t.email == email &&
      (t.createdSubjects.isNone || t.attendanceQueue.isNone ||
        t.completedClasses.isNone))
    (fun t => { t with createdSubjects := some [], attendanceQueue := some [],
                       completedClasses := some [] })
    teachers

/-! ## Derived per-student form of the promotion loop -/

/-- The per-document effect of one `updateMany` iteration of the promotion
loop. -/
def promoteStep (str : String) (cur : Nat) (s : Student) : Student :=
  if s.stream == str && s.semester == cur then { s with semester := cur + 1 } else s

/-- The per-student effect of the whole descending 5..1 loop: a student of
the stream at semesters 1..5 moves up by exactly one semester; every other
student is untouched.  (That a single pass equals this one-shot map is the
"no student promoted twice" property, proved below.) -/
def promoteOnce (str : String) (s : Student) : Student :=
  if s.stream == str && 1 ≤ s.semester && s.semester ≤ 5 then
    { s with semester := s.semester + 1 }
  else s

/-! ## Concrete fixtures used by witnesses, counterexamples and bug
evaluations -/

/-- A well-formed stored session. -/
def sessDemo : Session :=
  { stream := "BCA", semester := 2, subject := "DBMS", dateDay := 10,
    time := "10:00 AM", studentsPresent := ["S1", "S2"], totalStudents := 3,
    presentCount := 2, absentCount := 1 }

def storeDemo : AttendanceStore := [("u1", sessDemo)]

/-- The document after `updateSession "u1" ["x"] 3` on `storeDemo`. -/
def sessUpdated : Session :=
  { sessDemo with studentsPresent := ["x"], presentCount := 1,
                  absentCount := 2, totalStudents := 3 }

def bulkDemo : BulkItem :=
  { sessionId := "u1", studentsPresent := ["x"], totalStudents := 3 }

/-- A submit body that supplies no counts. -/
def bodyDerived : SubmitBody :=
  { date := some 10, time := some "10:00 AM", studentsPresent := some ["S1"],
    totalStudents := some 2, presentCount := none, absentCount := none }

def sessDerived : Session :=
  { stream := "BCA", semester := 2, subject := "DBMS", dateDay := 10,
    time := "10:00 AM", studentsPresent := ["S1"], totalStudents := 2,
    presentCount := 1, absentCount := 1 }

/-- A submit body whose caller-supplied counts contradict its
`studentsPresent` list. -/
def bodyInconsistent : SubmitBody :=
  { date := some 10, time := some "10:00 AM", studentsPresent := some ["S1"],
    totalStudents := some 2, presentCount := some 2, absentCount := some 2 }

def sessInconsistent : Session :=
  { stream := "BCA", semester := 2, subject := "DBMS", dateDay := 10,
    time := "10:00 AM", studentsPresent := ["S1"], totalStudents := 2,
    presentCount := 2, absentCount := 2 }

/-- The document stored by `updateSession "u1" ["x", "y"] 1` on `storeDemo`:
its `absentCount` is negative. -/
def sessNegative : Session :=
  { sessDemo with studentsPresent := ["x", "y"], presentCount := 2,
                  absentCount := -1, totalStudents := 1 }

def mkStudent (id : String) (str : String) (sem : Nat) : Student :=
  { studentID := id, name := id, stream := str, semester := sem,
    rollNumber := id, isActive := true }

/-- A roster with one BCA student per semester 1..5, two semester-6 BCA
students, and one student of another stream. -/
def promoDemo : PromoDB :=
  { students := [mkStudent "A1" "BCA" 1, mkStudent "B1" "BCA" 2,
                 mkStudent "C1" "BCA" 3, mkStudent "D1" "BCA" 4,
                 mkStudent "E1" "BCA" 5, mkStudent "F1" "BCA" 6,
                 mkStudent "F2" "BCA" 6, mkStudent "M1" "MBA" 6],
    history := [] }

/-- The state after promoting `promoDemo` and undoing once (both at time
1000); the fallback branch is never taken. -/
def promoAfterUndo : PromoDB :=
  match undoPromotion "BCA" 1000 (executePromotion "BCA" 1000 promoDemo).db with
  | .ok r => r.db
  | .error _ => promoDemo

/-- A stream whose only backup is 25 hours old. -/
def promoExpired : PromoDB :=
  { students := [mkStudent "A1" "BCA" 2],
    history := [{ stream := "BCA", timestamp := 0,
                  students := [mkStudent "A1" "BCA" 1], totalStudents := 1,
                  restored := false }] }

/-- The spec's example roster: S1, S2, S3 in BCA semester 2. -/
def roster3 : List Student :=
  [mkStudent "S1" "BCA" 2, mkStudent "S2" "BCA" 2, mkStudent "S3" "BCA" 2]

def sessJan10 : Session :=
  { stream := "BCA", semester := 2, subject := "DBMS", dateDay := 10,
    time := "10:00 AM", studentsPresent := ["S1", "S2"], totalStudents := 3,
    presentCount := 2, absentCount := 1 }

def sessJan11 : Session :=
  { sessJan10 with dateDay := 11, studentsPresent := ["S1", "S3"] }

def storeTwoSessions : AttendanceStore := [("a1", sessJan10), ("a2", sessJan11)]

def regDemo : RegisterView := buildFullRegister roster3 storeTwoSessions "BCA" 2 "DBMS"

/-- The register row the example register produces for S1 (percentage in
hundredths: 10000 is the JS string "100.00"). -/
def rowS1 : RegisterRow :=
  { studentID := "S1", name := "S1", rollNumber := "S1",
    statuses := ['P', 'P'], presentCount := 2, absentCount := 0,
    totalSessions := 2, attendancePercentage := 10000 }

def statsStoreBefore : AttendanceStore := [("id1", sessDemo)]

/-- Cache state after one stats read for (BCA, 2) at time 0. -/
def cacheAfterRead : StatsCache := (statsRoute "BCA" 2 0 statsStoreBefore []).2.1

def statsValueBefore : List SubjectStats := (statsRoute "BCA" 2 0 statsStoreBefore []).1

/-- Outcome of the session write for stream BCA after the stats read; the
fallback branch is never taken. -/
def writeOutcome : AttendanceStore × Session × StatsCache :=
  match updateSessionRoute "id1" ["S1"] 3 statsStoreBefore cacheAfterRead with
  | .ok r => r
  | .error _ => (statsStoreBefore, sessDemo, cacheAfterRead)

def statsStoreAfter : AttendanceStore := writeOutcome.1

def cacheAfterWrite : StatsCache := writeOutcome.2.2

/-- A teacher document with a populated `createdSubjects` but missing queue
and completed-classes arrays. -/
def teacherPartial : Teacher :=
  { email := "t@example.com",
    createdSubjects := some [{ id := "1", stream := "BCA", semester := 2,
                               subject := "DBMS" }],
    attendanceQueue := none, completedClasses := none }

/-- What `ensureTeacherFields` actually turns `teacherPartial` into. -/
def teacherWiped : Teacher :=
  { email := "t@example.com", createdSubjects := some [],
    attendanceQueue := some [], completedClasses := some [] }

/-! ## Helper lemmas -/

theorem updateManyPromote_eq_map (str : String) (cur : Nat) (l : List Student) :
    updateManyPromote str cur l = l.map (promoteStep str cur) := rfl

/-- Composing the five descending iterations on a single student promotes it
exactly once (semesters 1..5 of the stream) and fixes everything else. -/
theorem promoteStep_comp (str : String) (s : Student) :
    promoteStep str 1 (promoteStep str 2 (promoteStep str 3 (promoteStep str 4
      (promoteStep str 5 s)))) = promoteOnce str s := by
  rcases s with ⟨id, nm, st, sem, rn, ia⟩
  by_cases hst : st = str
  · subst hst
    simp only [promoteStep, promoteOnce, beq_self_eq_true, Bool.true_and]
    split_ifs <;> (simp_all; try omega)
  · have hb : (st == str) = false := beq_eq_false_iff_ne.mpr hst
    simp [promoteStep, promoteOnce, hb]

/-- The whole descending loop is the one-shot per-student map. -/
theorem promotionLoop_eq (str : String) (l : List Student) :
    [5, 4, 3, 2, 1].foldl (fun l cur => updateManyPromote str cur l) l
      = l.map (promoteOnce str) := by
  simp only [List.foldl_cons, List.foldl_nil, updateManyPromote_eq_map, List.map_map]
  refine List.map_congr_left fun s _ => ?_
  simp only [Function.comp_apply]
  exact promoteStep_comp str s

theorem execute_students (str : String) (now : Nat) (db : PromoDB) :
    (executePromotion str now db).db.students =
      (db.students.filter (fun s => !(s.stream == str && s.semester == 6))).map
        (promoteOnce str) := by
  simp only [executePromotion, promotionLoop_eq]

theorem execute_history (str : String) (now : Nat) (db : PromoDB) :
    (executePromotion str now db).db.history =
      db.history ++
        [{ stream := str, timestamp := now,
           students := db.students.filter (fun s => s.stream == str),
           totalStudents := (db.students.filter (fun s => s.stream == str)).length,
           restored := false }] := rfl

theorem length_sub_filter_not {A : Type} (p : A → Bool) (l : List A) :
    l.length - (l.filter (fun a => !(p a))).length = l.countP p := by
  induction l with
  | nil => rfl
  | cons a l ih =>
    have hle := List.length_filter_le (fun a => !(p a)) l
    by_cases h : p a <;>
      simp [List.countP_cons, h, List.length_cons] <;> omega

/-- The most recent backup of a list ending in a strictly newest matching
backup is that last element. -/
theorem latestWithIdx_append_max (pred : Backup → Bool) (hist : List Backup)
    (b : Backup) (hb : pred b = true)
    (hmax : ∀ a ∈ hist, pred a = true → a.timestamp < b.timestamp) :
    latestWithIdx pred (hist ++ [b]) = some (hist.length, b) := by
  induction hist with
  | nil => simp [latestWithIdx, hb]
  | cons h rest ih =>
    have ih' := ih (fun a ha hpa => hmax a (List.mem_cons_of_mem h ha) hpa)
    show latestWithIdx pred (h :: (rest ++ [b])) = _
    simp only [latestWithIdx, ih']
    by_cases hp : pred h = true
    · have hlt := hmax h (List.mem_cons_self h rest) hp
      rw [if_pos hp, if_neg (by omega)]
      simp
    · rw [if_neg hp]
      simp

theorem promoteOnce_stream (str : String) (s : Student) :
    (promoteOnce str s).stream = s.stream := by
  rw [promoteOnce]
  split_ifs <;> rfl

/-- Promotion leaves the other streams' students exactly in place. -/
theorem filter_notstream_promote (str : String) (l : List Student) :
    ((l.filter (fun s => !(s.stream == str && s.semester == 6))).map
        (promoteOnce str)).filter (fun s => !(s.stream == str)) =
      l.filter (fun s => !(s.stream == str)) := by
  rw [List.filter_map, List.filter_filter]
  have hpred : List.filter (fun s =>
      ((fun s => !(s.stream == str)) ∘ promoteOnce str) s &&
        !(s.stream == str && s.semester == 6)) l =
      List.filter (fun s => !(s.stream == str)) l := by
    apply List.filter_congr
    intro s _
    simp only [Function.comp_apply, promoteOnce_stream]
    by_cases hstr : s.stream = str
    · simp [hstr]
    · have hb : (s.stream == str) = false := beq_eq_false_iff_ne.mpr hstr
      simp [hb]
  rw [hpred]
  have hid : ∀ s ∈ List.filter (fun s => !(s.stream == str)) l,
      promoteOnce str s = (id s : Student) := by
    intro s hs
    rcases List.mem_filter.mp hs with ⟨_, h2⟩
    have hb : (s.stream == str) = false := by
      cases heq : s.stream == str
      · rfl
      · rw [heq] at h2; simp at h2
    simp [promoteOnce, hb]
  rw [List.map_congr_left hid, List.map_id]

theorem backup_students_filter (str : String) (l : List Student) :
    (l.filter (fun s => s.stream == str)).filter (fun s => s.stream == str) =
      l.filter (fun s => s.stream == str) := by
  simp [List.filter_filter]

theorem findId_setId (store : AttendanceStore) (id : String) (s v : Session)
    (h : findId store id = some s) : findId (setId store id v) id = some v := by
  induction store with
  | nil => simp [findId, List.find?] at h
  | cons e rest ih =>
    rw [setId]
    by_cases he : (e.1 == id) = true
    · rw [if_pos he]
      simp [findId, List.find?]
    · rw [if_neg he]
      have hb : (e.1 == id) = false := by revert he; cases (e.1 == id) <;> simp
      rw [findId, List.find?_cons, hb] at h
      rw [findId, List.find?_cons, hb]
      exact ih h

theorem mem_setId (store : AttendanceStore) (id : String) (v : Session)
    (x : String × Session) (hx : x ∈ setId store id v) :
    x ∈ store ∨ x = (id, v) := by
  induction store with
  | nil => simp [setId] at hx
  | cons e rest ih =>
    rw [setId] at hx
    by_cases he : (e.1 == id) = true
    · rw [if_pos he] at hx
      rcases List.mem_cons.mp hx with h | h
      · right; exact h
      · left; exact List.mem_cons_of_mem _ h
    · rw [if_neg he] at hx
      rcases List.mem_cons.mp hx with h | h
      · left; exact h ▸ List.mem_cons_self _ _
      · rcases ih h with h1 | h1
        · left; exact List.mem_cons_of_mem _ h1
        · right; exact h1

/-- Any document touched by a bulk item carries recomputed, consistent
counts. -/
theorem mem_applyBulkItem (item : BulkItem) (store : AttendanceStore)
    (x : String × Session) (hx : x ∈ applyBulkItem item store) :
    x ∈ store ∨
      (x.2.presentCount = (x.2.studentsPresent.length : Int) ∧
       x.2.presentCount + x.2.absentCount = x.2.totalStudents) := by
  rw [applyBulkItem] at hx
  cases hf : findId store item.sessionId with
  | none => rw [hf] at hx; left; exact hx
  | some s =>
    rw [hf] at hx
    rcases mem_setId _ _ _ _ hx with h | h
    · left; exact h
    · right
      subst h
      exact ⟨rfl, by simp⟩

theorem containsId_eq_isSome (store : AttendanceStore) (id : String) :
    containsId store id = (findId store id).isSome := by
  induction store with
  | nil => rfl
  | cons e rest ih =>
    by_cases he : (e.1 == id) = true
    · simp [containsId, findId, List.any_cons, List.find?_cons, he]
    · have hb : (e.1 == id) = false := by revert he; cases (e.1 == id) <;> simp
      simp only [containsId, findId, List.any_cons, List.find?_cons, hb,
        Bool.false_or]
      simpa [containsId, findId] using ih

theorem eraseId_of_not_contains (store : AttendanceStore) (id : String)
    (h : containsId store id = false) : eraseId store id = store := by
  induction store with
  | nil => rfl
  | cons e rest ih =>
    simp only [containsId, List.any_cons, Bool.or_eq_false_iff] at h
    rw [eraseId, if_neg (by simp [h.1]), ih h.2]

/-! ## Claim theorems -/

/-- Claim C1, counterexample: the submit route stores caller-supplied nonzero
counts verbatim (`presentCount: presentCount || studentsPresent.length`), so
a request with `studentsPresent = ["S1"]`, `totalStudents = 2`,
`presentCount = 2`, `absentCount = 2` is accepted and stored with
`presentCount ≠ |studentsPresent|` and
`presentCount + absentCount ≠ totalStudents` — the claimed invariant fails
on the submit write path. -/
theorem claim1_counts_counterexample :
    submitAttendance "BCA" 2 "DBMS" bodyInconsistent "id1" [] =
      .ok ([("id1", sessInconsistent)], sessInconsistent) ∧
    sessInconsistent.presentCount ≠ (sessInconsistent.studentsPresent.length : Int) ∧
    sessInconsistent.presentCount + sessInconsistent.absentCount ≠
      sessInconsistent.totalStudents :=
  ⟨rfl, by decide, by decide⟩

/-- Claim C1, amended: the single-session update and the bulk update always
recompute `presentCount = |studentsPresent|` and
`absentCount = totalStudents - presentCount`, so every session they write
satisfies the invariant; the submit path guarantees it only when the caller
supplies no `presentCount`/`absentCount` (they are then derived) — supplied
nonzero counts are stored verbatim. -/
theorem claim1_counts_amended :
    (∀ id studentsPresent totalStudents store store' s',
      updateSession id studentsPresent totalStudents store = .ok (store', s') →
        s'.presentCount = (studentsPresent.length : Int) ∧
        s'.presentCount + s'.absentCount = s'.totalStudents ∧
        s'.totalStudents = totalStudents ∧
        findId store' id = some s') ∧
    (∀ updates store x, x ∈ bulkUpdate updates store →
      x ∈ store ∨
        ((x : String × Session).2.presentCount = (x.2.studentsPresent.length : Int) ∧
         x.2.presentCount + x.2.absentCount = x.2.totalStudents)) ∧
    (∀ stream semesterNumber subject body newId store store' s',
      body.presentCount = none → body.absentCount = none →
      submitAttendance stream semesterNumber subject body newId store = .ok (store', s') →
        s'.presentCount = (s'.studentsPresent.length : Int) ∧
        s'.presentCount + s'.absentCount = s'.totalStudents) := by
  refine ⟨?_, ?_, ?_⟩
  · intro id studentsPresent totalStudents store store' s' h
    rw [updateSession] at h
    by_cases hlt : totalStudents < 1
    · rw [if_pos hlt] at h; exact absurd h (by simp)
    · rw [if_neg hlt] at h
      cases hf : findId store id with
      | none => rw [hf] at h; exact absurd h (by simp)
      | some s =>
        rw [hf] at h
        simp only [Except.ok.injEq, Prod.mk.injEq] at h
        obtain ⟨h1, h2⟩ := h
        subst h1; subst h2
        refine ⟨rfl, by simp, rfl, ?_⟩
        exact findId_setId store id s _ hf
  · intro updates store x hx
    induction updates generalizing store with
    | nil => left; exact hx
    | cons u rest ih =>
      have hx' : x ∈ bulkUpdate rest (applyBulkItem u store) := hx
      rcases ih (applyBulkItem u store) hx' with h | h
      · exact mem_applyBulkItem u store x h
      · right; exact h
  · intro stream semesterNumber subject body newId store store' s' hp ha h
    rw [submitAttendance] at h
    rcases hd : body.date with _ | d <;> rw [hd] at h <;>
      [exact absurd h (by simp); skip]
    rcases htm : body.time with _ | tm <;> rw [htm] at h <;>
      [exact absurd h (by simp); skip]
    rcases hsp : body.studentsPresent with _ | sp <;> rw [hsp] at h <;>
      [exact absurd h (by simp); skip]
    rcases htot : body.totalStudents with _ | tot <;> rw [htot] at h <;>
      [exact absurd h (by simp); skip]
    rw [hp, ha] at h
    simp only at h
    split at h
    · simp only [Except.ok.injEq, Prod.mk.injEq] at h
      obtain ⟨h1, h2⟩ := h
      subst h2
      refine ⟨?_, ?_⟩ <;> simp [mkSubmittedSession, jsOrInt, ite_self]
    · exact absurd h (by simp)

/-- Claim C1 witness: the amended statement at concrete inputs — an update,
a bulk item and a count-free submit on small stores. -/
theorem claim1_counts_amended_witness :
    updateSession "u1" ["x"] 3 storeDemo = .ok ([("u1", sessUpdated)], sessUpdated) ∧
    (sessUpdated.presentCount = ((["x"] : List String).length : Int) ∧
      sessUpdated.presentCount + sessUpdated.absentCount = sessUpdated.totalStudents ∧
      sessUpdated.totalStudents = 3 ∧
      findId [("u1", sessUpdated)] "u1" = some sessUpdated) ∧
    ("u1", sessUpdated) ∈ bulkUpdate [bulkDemo] storeDemo ∧
    (("u1", sessUpdated) ∈ storeDemo ∨
      (sessUpdated.presentCount = (sessUpdated.studentsPresent.length : Int) ∧
        sessUpdated.presentCount + sessUpdated.absentCount = sessUpdated.totalStudents)) ∧
    submitAttendance "BCA" 2 "DBMS" bodyDerived "id1" [] =
      .ok ([("id1", sessDerived)], sessDerived) ∧
    (sessDerived.presentCount = (sessDerived.studentsPresent.length : Int) ∧
      sessDerived.presentCount + sessDerived.absentCount = sessDerived.totalStudents) := by
  refine ⟨rfl,
    claim1_counts_amended.1 "u1" ["x"] 3 storeDemo [("u1", sessUpdated)] sessUpdated rfl,
    by decide,
    claim1_counts_amended.2.1 [bulkDemo] storeDemo ("u1", sessUpdated) (by decide),
    rfl,
    claim1_counts_amended.2.2 "BCA" 2 "DBMS" bodyDerived "id1" []
      [("id1", sessDerived)] sessDerived rfl rfl rfl⟩

/-- Claim C2: for a stream whose students all sit at semesters 1..6,
`executePromotion` (i) appends a backup document with `restored = false`
holding the full pre-execute roster of the stream, (ii) graduates (deletes)
exactly the semester-6 students, (iii) leaves semester 1 empty and shifts
each semester count up by one, and (iv) equals a one-shot per-student map
that increments each stream student's semester exactly once (semesters
1..5) — no student is promoted twice in the pass. -/
theorem claim2_promotion_execute (str : String) (now : Nat) (db : PromoDB)
    (hsem : ∀ s ∈ db.students, s.stream = str → 1 ≤ s.semester ∧ s.semester ≤ 6) :
    (executePromotion str now db).db.history =
      db.history ++
        [{ stream := str, timestamp := now,
           students := db.students.filter (fun s => s.stream == str),
           totalStudents := (db.students.filter (fun s => s.stream == str)).length,
           restored := false }] ∧
    (executePromotion str now db).totalGraduated = semCount db str 6 ∧
    semCount (executePromotion str now db).db str 1 = 0 ∧
    (∀ k, 1 ≤ k → k ≤ 5 →
      semCount (executePromotion str now db).db str (k + 1) = semCount db str k) ∧
    (executePromotion str now db).db.students =
      (db.students.filter (fun s => !(s.stream == str && s.semester == 6))).map
        (promoteOnce str) := by
  refine ⟨execute_history str now db, ?_, ?_, ?_, execute_students str now db⟩
  · show db.students.length - _ = _
    exact length_sub_filter_not _ _
  · rw [semCount, execute_students, List.countP_map, List.countP_filter]
    rw [List.countP_eq_zero]
    intro s hs
    rcases s with ⟨id, nm, st, sem, rn, ia⟩
    by_cases hstr : st = str
    · subst hstr
      obtain ⟨h1, h6⟩ := hsem _ hs rfl
      simp only [promoteOnce, Function.comp_apply] at h1 h6 ⊢
      split_ifs <;> simp_all <;> omega
    · have hb : (st == str) = false := beq_eq_false_iff_ne.mpr hstr
      simp [promoteOnce, hb]
  · intro k hk1 hk5
    rw [semCount, semCount, execute_students, List.countP_map, List.countP_filter]
    refine List.countP_congr ?_
    intro s hs
    rcases s with ⟨id, nm, st, sem, rn, ia⟩
    by_cases hstr : st = str
    · subst hstr
      obtain ⟨h1, h6⟩ := hsem _ hs rfl
      simp only [promoteOnce, Function.comp_apply]
      constructor <;> intro h <;> (revert h; split_ifs <;> simp_all <;> omega)
    · have hb : (st == str) = false := beq_eq_false_iff_ne.mpr hstr
      simp [promoteOnce, hb]

/-- Claim C2 witness: the promotion theorem evaluated on a concrete roster
with semester counts [1,1,1,1,1,2] for BCA plus one MBA student. -/
theorem claim2_promotion_execute_witness :
    (executePromotion "BCA" 1000 promoDemo).db.history =
      promoDemo.history ++
        [{ stream := "BCA", timestamp := 1000,
           students := promoDemo.students.filter (fun s => s.stream == "BCA"),
           totalStudents := (promoDemo.students.filter (fun s => s.stream == "BCA")).length,
           restored := false }] ∧
    (executePromotion "BCA" 1000 promoDemo).totalGraduated = semCount promoDemo "BCA" 6 ∧
    semCount (executePromotion "BCA" 1000 promoDemo).db "BCA" 1 = 0 ∧
    semCount (executePromotion "BCA" 1000 promoDemo).db "BCA" (2 + 1) =
      semCount promoDemo "BCA" 2 ∧
    (executePromotion "BCA" 1000 promoDemo).db.students =
      (promoDemo.students.filter (fun s => !(s.stream == "BCA" && s.semester == 6))).map
        (promoteOnce "BCA") := by
  have h := claim2_promotion_execute "BCA" 1000 promoDemo (by decide)
  exact ⟨h.1, h.2.1, h.2.2.1, h.2.2.2.1 2 (by decide) (by decide), h.2.2.2.2⟩

/-- Claim C3: executing promotion and immediately undoing it restores the
stream's roster exactly — the undo succeeds, and the stream's students
(hence their studentID set and per-student semesters) equal the
pre-promotion ones.  The hypothesis says every pre-existing backup of the
stream is older than the promotion's timestamp (timestamps move forward),
so the undo picks the backup the promotion just wrote. -/
theorem claim3_undo_restores (str : String) (now : Nat) (db : PromoDB)
    (hts : ∀ b ∈ db.history, b.stream = str → b.timestamp < now) :
    ∃ r, undoPromotion str now (executePromotion str now db).db = .ok r ∧
      r.db.students.filter (fun s => s.stream == str) =
        db.students.filter (fun s => s.stream == str) ∧
      (r.db.students.filter (fun s => s.stream == str)).map
          (fun s => (s.studentID, s.semester)) =
        (db.students.filter (fun s => s.stream == str)).map
          (fun s => (s.studentID, s.semester)) := by
  have hlatest : latestWithIdx (fun b => b.stream == str)
      (executePromotion str now db).db.history =
      some (db.history.length,
        { stream := str, timestamp := now,
          students := db.students.filter (fun s => s.stream == str),
          totalStudents := (db.students.filter (fun s => s.stream == str)).length,
          restored := false }) := by
    rw [execute_history]
    exact latestWithIdx_append_max _ _ _ (by simp)
      (fun a ha hpa => hts a ha (by simpa using hpa))
  rw [undoPromotion, hlatest]
  simp only [Nat.sub_self, Nat.zero_div]
  rw [if_neg (by omega)]
  have hfil : (((executePromotion str now db).db.students.filter
        (fun s => !(s.stream == str))) ++
      db.students.filter (fun s => s.stream == str)).filter
        (fun s => s.stream == str) =
      db.students.filter (fun s => s.stream == str) := by
    rw [execute_students, List.filter_append, filter_notstream_promote,
      List.filter_filter]
    simp [Bool.and_not_self]
  exact ⟨_, rfl, hfil, by rw [hfil]⟩

/-- Claim C3 witness: promote-then-undo on the concrete roster restores the
BCA student list exactly. -/
theorem claim3_undo_restores_witness :
    (undoPromotion "BCA" 1000 (executePromotion "BCA" 1000 promoDemo).db).map
        (fun r => r.db.students.filter (fun s => s.stream == "BCA")) =
      .ok (promoDemo.students.filter (fun s => s.stream == "BCA")) := by
  obtain ⟨r, h1, h2, h3⟩ := claim3_undo_restores "BCA" 1000 promoDemo (by decide)
  rw [h1]
  simpa [Except.map] using h2

/-- Claim C4: the 25-hour expiry and the no-backup behaviour match the
claim, but the "second undo fails" part is a code bug: `undoPromotion`'s
backup query omits the `restored: { $ne: true }` filter that
`canUndoPromotion` applies, so after a successful undo has marked the
backup `restored = true`, `canUndo` reports false yet a second undo
succeeds and restores the same backup again instead of failing. -/
theorem claim4_second_undo_bug :
    (undoPromotion "BCA" 1000 (executePromotion "BCA" 1000 promoDemo).db).isOk = true ∧
    promoAfterUndo.history.map (fun b => b.restored) = [true] ∧
    (canUndoPromotion "BCA" 1000 promoAfterUndo).canUndo = false ∧
    (undoPromotion "BCA" 1000 promoAfterUndo).isOk = true ∧
    (canUndoPromotion "BCA" (25 * 3600000) promoExpired).canUndo = false ∧
    (canUndoPromotion "BCA" (25 * 3600000) promoExpired).hoursOld = 25 ∧
    undoPromotion "BCA" (25 * 3600000) promoExpired = .error .undoExpired ∧
    undoPromotion "BCA" 0 { students := [], history := [] } = .error .notFound :=
  ⟨rfl, rfl, rfl, rfl, rfl, rfl, rfl, rfl⟩

/-- Claim C5: the single-session update recomputes the counts but does NOT
reject an inconsistent `totalStudents` — `findByIdAndUpdate` is called
without `runValidators`, so updating a session to 2 present students with
`totalStudents = 1` succeeds and stores `absentCount = -1`, violating the
schema's own `min: 0` bound instead of failing with a validation error. -/
theorem claim5_negative_absent_stored :
    updateSession "u1" ["x", "y"] 1 storeDemo =
      .ok ([("u1", sessNegative)], sessNegative) ∧
    sessNegative.absentCount = -1 ∧
    sessNegative.absentCount < 0 :=
  ⟨rfl, rfl, by decide⟩

/-- Claim C6: when a (stream, semester, subject, date) has zero sessions on
that day, the single-date register returns the successful explicit
no-attendance shape (`hasAttendance: false`) carrying the full active
roster and an empty sessions list — not an error. -/
theorem claim6_no_attendance (studentsCol : List Student) (store : AttendanceStore)
    (stream : String) (semesterNumber : Nat) (subject : String) (day : Nat)
    (h : (store.map Prod.snd).filter (fun s =>
      ciEq s.stream stream && s.semester == semesterNumber &&
        ciEq s.subject subject && s.dateDay == day) = []) :
    dateRegister studentsCol store stream semesterNumber subject day =
      .noAttendance (activeRoster studentsCol stream semesterNumber) := by
  rw [dateRegister, h]
  rfl

/-- Claim C6 witness: the example store has sessions on days 10 and 11 only,
so day 12 yields the no-attendance result with the full roster. -/
theorem claim6_no_attendance_witness :
    (storeTwoSessions.map Prod.snd).filter (fun s =>
      ciEq s.stream "BCA" && s.semester == 2 &&
        ciEq s.subject "DBMS" && s.dateDay == 12) = [] ∧
    dateRegister roster3 storeTwoSessions "BCA" 2 "DBMS" 12 =
      .noAttendance (activeRoster roster3 "BCA" 2) :=
  ⟨by decide, claim6_no_attendance roster3 storeTwoSessions "BCA" 2 "DBMS" 12 (by decide)⟩

/-- Claim C7: in the full register every student's percentage is
`((presentCount / totalSessions) * 100).toFixed(2)` — here
`toFixed2 (presentCount * 100) totalSessions`, the 2-decimal rounding in
hundredths — with the number 0 when there are no sessions (no division
fault), and `averageAttendance` is the `toFixed(2)`-rounded mean of the
per-student percentages (0 with no students).  On the spec's example
(roster S1,S2,S3; sessions present [S1,S2] and [S1,S3]) the percentages
are 100.00, 50.00, 50.00 and the average is 66.67 (10000, 5000, 5000 and
6667 in hundredths). -/
theorem claim7_register_percentages :
    (∀ studentsCol store stream semesterNumber subject,
      ∀ r ∈ (buildFullRegister studentsCol store stream semesterNumber subject).students,
        r.attendancePercentage =
          if 0 < (buildFullRegister studentsCol store stream semesterNumber subject).totalSessions
          then toFixed2 ((r.presentCount : Int) * 100)
            ((buildFullRegister studentsCol store stream semesterNumber subject).totalSessions : Int)
          else 0) ∧
    (∀ studentsCol store stream semesterNumber subject,
      (buildFullRegister studentsCol store stream semesterNumber subject).averageAttendance =
        if 0 < (buildFullRegister studentsCol store stream semesterNumber subject).students.length
        then toFixed2 (((buildFullRegister studentsCol store stream semesterNumber subject).students.map
            (fun r => r.attendancePercentage)).sum : Int)
          (100 * ((buildFullRegister studentsCol store stream semesterNumber subject).students.length : Int))
        else 0) ∧
    regDemo.students.map (fun r => (r.studentID, r.attendancePercentage)) =
      [("S1", 10000), ("S2", 5000), ("S3", 5000)] ∧
    regDemo.averageAttendance = 6667 := by
  refine ⟨?_, fun _ _ _ _ _ => rfl, by decide, by decide⟩
  intro studentsCol store stream semesterNumber subject r hr
  rcases List.mem_map.mp hr with ⟨stu, hstu, rfl⟩
  rfl

/-- Claim C7 witness: the per-student formula and the average formula
evaluated on the example register and its S1 row. -/
theorem claim7_register_percentages_witness :
    rowS1 ∈ regDemo.students ∧
    rowS1.attendancePercentage =
      (if 0 < regDemo.totalSessions
       then toFixed2 ((rowS1.presentCount : Int) * 100) (regDemo.totalSessions : Int)
       else 0) ∧
    regDemo.averageAttendance =
      (if 0 < regDemo.students.length
       then toFixed2 (((regDemo.students.map (fun r => r.attendancePercentage)).sum : Int))
         (100 * (regDemo.students.length : Int))
       else 0) :=
  ⟨by decide,
   claim7_register_percentages.1 roster3 storeTwoSessions "BCA" 2 "DBMS" rowS1 (by decide),
   claim7_register_percentages.2.1 roster3 storeTwoSessions "BCA" 2 "DBMS"⟩

/-- Claim C8, counterexample: deleting an id that is absent IS reported as
an error by the route — HTTP 404 with `success: false` and an error
message — contradicting "returns false, a non-error result". -/
theorem claim8_delete_counterexample :
    deleteAttendance "missing" [] =
      ([], { status := 404, success := false, error := some "Record not found" }) ∧
    (deleteAttendance "missing" []).2.error ≠ none :=
  ⟨rfl, by decide⟩

/-- Claim C8, amended: the route distinguishes the two outcomes by the
success flag — removal answers success, and an absent id answers a 404
not-found error response (success false, error message), leaving the
store unchanged; it does not throw. -/
theorem claim8_delete_amended (id : String) (store : AttendanceStore) :
    (deleteAttendance id store).2.success = containsId store id ∧
    (deleteAttendance id store).2.status =
      (if containsId store id then 200 else 404) ∧
    (deleteAttendance id store).2.error =
      (if containsId store id then none else some "Record not found") ∧
    (deleteAttendance id store).1 = eraseId store id := by
  cases hf : findId store id with
  | none =>
    have hc : containsId store id = false := by
      rw [containsId_eq_isSome, hf]; rfl
    simp [deleteAttendance, hf, hc, eraseId_of_not_contains store id hc]
  | some s =>
    have hc : containsId store id = true := by
      rw [containsId_eq_isSome, hf]; rfl
    simp [deleteAttendance, hf, hc]

/-- Claim C9: the TTL behaviour matches the claim, but the invalidation is
a code bug: `getCacheKey` produces keys like
stats:\x7b"stream":"BCA","semester":2\x7d while the write paths clear the
prefixes `stats:BCA` / `attendance:BCA`, which match no such key.  So after
a stats read is cached, a successful session write for the same stream
deletes nothing, and an identical stats read within the TTL returns the
stale cached value without querying the store (third component of
`statsRoute` = whether the store was queried), even though the aggregate
over the new store differs; only after the 5-minute TTL does the entry
lazily expire and the read recompute. -/
theorem claim9_cache_invalidation_bug :
    (statsRoute "BCA" 2 0 statsStoreBefore []).2.2 = true ∧
    (updateSessionRoute "id1" ["S1"] 3 statsStoreBefore cacheAfterRead).isOk = true ∧
    cacheAfterWrite = cacheAfterRead ∧
    (statsRoute "BCA" 2 1000 statsStoreAfter cacheAfterWrite).2.2 = false ∧
    (statsRoute "BCA" 2 1000 statsStoreAfter cacheAfterWrite).1 = statsValueBefore ∧
    computeStats statsStoreAfter "BCA" 2 ≠ statsValueBefore ∧
    (statsRoute "BCA" 2 400000 statsStoreAfter cacheAfterWrite).2.2 = true ∧
    (statsRoute "BCA" 2 400000 statsStoreAfter cacheAfterWrite).1 =
      computeStats statsStoreAfter "BCA" 2 := by
  refine ⟨by decide, by decide, by decide, by decide, by decide, by decide,
    by decide, by decide⟩

/-- Claim C10: `ensureTeacherFields` is a code bug with respect to the
claimed no-clobbering: its repair update matches when ANY of the three
arrays is missing and then sets ALL THREE to `[]`, so a teacher with a
populated `createdSubjects` but a missing `attendanceQueue` has the
populated array wiped on first contact.  (A repeated call after that is
indeed a no-op.) -/
theorem claim10_ensure_fields_bug :
    ensureTeacherFields [teacherPartial] "t@example.com" = [teacherWiped] ∧
    teacherPartial.createdSubjects =
      some [{ id := "1", stream := "BCA", semester := 2, subject := "DBMS" }] ∧
    teacherWiped.createdSubjects = some [] ∧
    ensureTeacherFields [teacherWiped] "t@example.com" = [teacherWiped] :=
  ⟨rfl, rfl, rfl, rfl⟩
